import Mathlib

/-!
Verification development for the catalog rendering backend
(`backend/services/catalog_service.py` and `backend/routes/catalog_routes.py`).

The Python code is shallowly embedded: dict-shaped documents become
structures with `Option` fields (a `none` field models an absent key),
Python exceptions become an explicit error sum type threaded through
`Except`, and the side effects of a render invocation (blob uploads and
metadata writes) are recorded in an explicit `Effects` value.  Python
`len`/slicing on strings is modelled on the underlying character list
(`pyLen` / `pyTake`), and prices are modelled in integral cents, so that
the `:,.2f` format of the source acts on exactly representable values.
-/

namespace CatalogSvc

/-- Artisan profile document (`profiles/{id}` in the store).
A `none` field models a key that is absent from the document. -/
structure Artisan where
  name : Option String
  email : Option String
  phone : Option String
  deriving Repr, DecidableEq

/-- Product document.  `priceCents` models the numeric `price` field in
integral cents (`product.get('price', 0)` defaults to `0`, i.e. `0` cents). -/
structure Product where
  name : Option String
  description : Option String
  priceCents : Nat
  category : Option String
  image_url : Option String
  deriving Repr, DecidableEq

/-- Python `len` on a string: number of code points. -/
def pyLen (s : String) : Nat := s.data.length

/-- Python slice `s[:n]` on a string. -/
def pyTake (s : String) (n : Nat) : String := String.mk (s.data.take n)

/-! ## Image acquisition helper (`CatalogService.download_image`) -/

/-- Outcome of the underlying `requests.get` call, as distinguished by the
handlers of `download_image`: a timeout, any other request/unexpected
failure, or a 2xx response carrying a declared content type and a body. -/
inductive FetchOutcome
  | timeout
  | requestError
  | okResponse (contentType : String) (body : List Nat)
  deriving Repr, DecidableEq

/-- The check `'image' in content_type.lower()` from the source: the
substring `"image"` occurs in the lower-cased content type exactly when
splitting on it yields more than one piece. -/
def hasImageContentType (ct : String) : Bool :=
  1 < (ct.toLower.splitOn "image").length

/-- `CatalogService.download_image`: every failure handler returns `None`;
a non-image declared content type returns `None`; success returns the body.
The function is total (never raises past its boundary), which the embedding
expresses by returning `Option` rather than an error. -/
def download_image (o : FetchOutcome) : Option (List Nat) :=
  match o with
  | .timeout => none
  | .requestError => none
  | .okResponse ct body => if hasImageContentType ct then some body else none

/-! ## Price formatting (`f"₹{price:,.2f}"`) -/

/-- Digit grouping: walk the reversed digit list and place a comma before
every digit whose (0-based) position from the right is a positive multiple
of three. -/
def groupRev : List Char → Nat → List Char
  | [], _ => []
  | c :: cs, k =>
    if k % 3 = 0 ∧ k ≠ 0 then ',' :: c :: groupRev cs (k + 1)
    else c :: groupRev cs (k + 1)

/-- Decimal rendering of a natural number with thousands separators,
as Python's `{:,}` format produces. -/
def commaNat (n : Nat) : String :=
  String.mk ((groupRev (Nat.toDigits 10 n).reverse 0).reverse)

/-- Two-digit fractional part: `f` is the cents remainder `0 ≤ f < 100`. -/
def twoDigits (f : Nat) : String :=
  if f < 10 then "0" ++ Nat.repr f else Nat.repr f

/-- Python's `f"{price:,.2f}"` on a price of `cents / 100`:
integer part grouped with commas, then a dot and exactly two decimals. -/
def pyFormatComma2 (cents : Nat) : String :=
  commaNat (cents / 100) ++ "." ++ twoDigits (cents % 100)

/-- The price string of the image engine: `f"₹{price:,.2f}"`. -/
def imagePriceText (cents : Nat) : String :=
  "₹" ++ pyFormatComma2 cents

/-- The price string of the PDF engine: `f"Price: ₹{price:,.2f}"`. -/
def pdfPriceText (cents : Nat) : String :=
  "Price: " ++ imagePriceText cents

/-! ## Image-engine text truncation -/

/-- The rendered product name of the image engine:
`product.get('name', 'Product')[:35]`, with `'...'` appended when
`len(product.get('name', '')) > 35`. -/
def imageProductName (p : Product) : String :=
  let base := pyTake (p.name.getD "Product") 35
  if 35 < pyLen (p.name.getD "") then base ++ "..." else base

/-- The rendered category of the image engine: `product['category'][:25]`. -/
def imageCategoryText (c : String) : String := pyTake c 25

/-! ## Image-engine canvas geometry -/

/-- `products_per_row = 2` from the source. -/
def products_per_row : Nat := 2

/-- `product_height = 450` from the source. -/
def product_height : Nat := 450

/-- `header_height = 150` from the source. -/
def header_height : Nat := 150

/-- `rows = (len(products) + products_per_row - 1) // products_per_row`. -/
def canvasRows (n : Nat) : Nat := (n + products_per_row - 1) / products_per_row

/-- `img_width = 1200`. -/
def img_width : Nat := 1200

/-- `img_height = header_height + (rows * product_height)`. -/
def img_height (n : Nat) : Nat := header_height + canvasRows n * product_height

/-! ## Image-engine grid rendering

The drawing calls the product loop of `generate_image_catalog` performs on
the canvas are reified as a list of `DrawOp` values, in program order. -/

/-- A drawing primitive issued on the catalog canvas. -/
inductive DrawOp
  | cardRect (x y w h : Nat)
  | pasteImage (x y : Nat)
  | placeholderRect (x y w h : Nat)
  | placeholderText (x y : Nat) (s : String)
  | nameText (x y : Nat) (s : String)
  | priceText (x y : Nat) (s : String)
  | categoryText (x y : Nat) (s : String)
  deriving Repr, DecidableEq

/-- `x_offset = 50`. -/
def x_offset : Nat := 50

/-- `y_offset = header_height + 30`. -/
def y_offset : Nat := header_height + 30

/-- `col_width = 550`. -/
def col_width : Nat := 550

/-- `x_pos = x_offset + (col * col_width)` with `col = idx % products_per_row`. -/
def xPos (i : Nat) : Nat := x_offset + (i % products_per_row) * col_width

/-- `y_pos = y_offset + (row * product_height)` with `row = idx // products_per_row`. -/
def yPos (i : Nat) : Nat := y_offset + (i / products_per_row) * product_height

/-- What became of one product's image asset inside the per-product `try`:
`noData` — `download_image` returned `None` (timeout, network error,
non-image content type), so the `if img_data:` guard skipped the block;
`decodeFailed` — the bytes were downloaded but opening / converting /
pasting them raised, entering the `except` handler;
`decoded w` — the image decoded and was thumbnailed to width `w ≤ 280`. -/
inductive AssetOutcome
  | noData
  | decodeFailed
  | decoded (w : Nat)
  deriving Repr, DecidableEq

/-- The drawing calls of the image block of one cell (lines 340–374 of the
source): nothing without a URL; nothing when `download_image` gave `None`;
the placeholder rectangle and the "No Image" caption only in the `except`
handler; the pasted image, centred in the 510-wide area, on success. -/
def imageCellOps (x y : Nat) (p : Product) (a : AssetOutcome) : List DrawOp :=
  match p.image_url with
  | none => []
  | some _ =>
    match a with
    | .noData => []
    | .decodeFailed =>
        [.placeholderRect x y 280 280, .placeholderText (x + 80) (y + 130) "No Image"]
    | .decoded w => [.pasteImage (x + (510 - w) / 2) y]

/-- The text block of one cell: name at `text_y = y_pos + 300`, price at
`text_y + 35`, category at `text_y + 75` only when present. -/
def textCellOps (x y : Nat) (p : Product) : List DrawOp :=
  [.nameText x (y + 300) (imageProductName p),
   .priceText x (y + 335) (imagePriceText p.priceCents)] ++
  (match p.category with
   | none => []
   | some c => [.categoryText x (y + 375) (imageCategoryText c)])

/-- All drawing calls of the cell of product `i`: the bordered card
rectangle at `(x_pos - 10, y_pos - 10)`, size `530 × 420`, then the image
block, then the text block. -/
def renderCell (i : Nat) (p : Product) (a : AssetOutcome) : List DrawOp :=
  DrawOp.cardRect (xPos i - 10) (yPos i - 10) 530 420 ::
    (imageCellOps (xPos i) (yPos i) p a ++ textCellOps (xPos i) (yPos i) p)

/-- The product loop from index `k` on: the cell of the head product at
index `k`, then the remaining products at the following indices, in
program order. -/
def renderFrom (k : Nat) (ps : List Product) (oracle : Nat → AssetOutcome) : List DrawOp :=
  match ps with
  | [] => []
  | p :: rest => renderCell k p (oracle k) ++ renderFrom (k + 1) rest oracle

/-- The whole product loop: cells in list order, product `i` rendered with
whatever its image fetch/decode produced (`oracle i`). -/
def renderGrid (ps : List Product) (oracle : Nat → AssetOutcome) : List DrawOp :=
  renderFrom 0 ps oracle

/-- Recognizes the placeholder drawing calls of the `except` handler. -/
def DrawOp.isPlaceholder : DrawOp → Bool
  | .placeholderRect _ _ _ _ => true
  | .placeholderText _ _ _ => true
  | _ => false

/-- Recognizes the image-area drawing calls (paste or placeholder), the
only part of a cell that depends on the asset outcome. -/
def DrawOp.isImageArea : DrawOp → Bool
  | .pasteImage _ _ => true
  | .placeholderRect _ _ _ _ => true
  | .placeholderText _ _ _ => true
  | _ => false

/-! ## Service layer: `get_artisan_products`, `generate_pdf_catalog`,
`generate_image_catalog`

Python exceptions are embedded as an explicit sum.  Each service function
wraps any exception escaping its `try` body in a fresh plain `Exception`
whose message prepends a fixed tag — modelled by producing `.exn` with the
concatenated message.  The side effects on the Artifact Store and the
Metadata Log are returned in an `Effects` value; every failing path
returns `Effects.empty` because the raise happens before any upload. -/

/-- A raised Python exception, as the route's handlers distinguish them:
`valueError` (`ValueError`), `httpExn` (`fastapi.HTTPException` with a
status code), and `exn` (any other `Exception`). -/
inductive PyErr
  | valueError (msg : String)
  | exn (msg : String)
  | httpExn (status : Nat) (detail : String)
  deriving Repr, DecidableEq

/-- Python `str(e)` on an exception; for an `HTTPException`,
`__str__` yields `"{status_code}: {detail}"`. -/
def pyStr : PyErr → String
  | .valueError m => m
  | .exn m => m
  | .httpExn s m => toString s ++ ": " ++ m

/-- A document appended to the `catalogs` collection. -/
structure CatalogRecord where
  artisan_id : String
  type : String
  url : String
  product_count : Nat
  storage_path : String
  deriving Repr, DecidableEq

/-- The serialized content of an artifact: the built PDF document, or the
PNG encoding of a canvas, identified by the drawing calls that filled it. -/
inductive ArtifactContent
  | pdfDoc
  | png (ops : List DrawOp)
  deriving Repr, DecidableEq

/-- One blob uploaded to the Artifact Store. -/
structure Upload where
  path : String
  contentType : String
  content : ArtifactContent
  deriving Repr, DecidableEq

/-- The externally visible writes of one invocation. -/
structure Effects where
  uploads : List Upload
  records : List CatalogRecord
  deriving Repr, DecidableEq

/-- No writes performed. -/
def Effects.empty : Effects := ⟨[], []⟩

/-- The dict returned by a successful generate call. -/
structure GenResult where
  success : Bool
  catalog_url : String
  product_count : Nat
  artisan_name : String
  deriving Repr, DecidableEq

/-- The external stores: profile documents and per-artisan product lists. -/
structure DB where
  profiles : String → Option Artisan
  products : String → List Product

/-- `blob.public_url`, modelled as a deterministic function of the path. -/
def publicUrl (path : String) : String := "https://storage.googleapis.com/" ++ path

/-- `CatalogService.get_artisan_products`: a missing profile raises
`ValueError`, but the function's own catch-all re-raises it as a plain
`Exception` tagged `"Error fetching data: "`; a present profile returns it
with the product list (possibly empty). -/
def get_artisan_products (db : DB) (aid : String) :
    Except PyErr (Artisan × List Product) :=
  match db.profiles aid with
  | none => .error (.exn ("Error fetching data: Artisan not found with ID: " ++ aid))
  | some a => .ok (a, db.products aid)

/-- `CatalogService.generate_pdf_catalog`.  Any exception inside its `try`
— including the `ValueError` raised for an empty product list — is caught
by its own `except Exception` and re-raised as a plain `Exception` tagged
`"Error generating PDF: "`.  On success it uploads one PDF blob, appends
one catalog record with `product_count = len(products)`, and returns the
result dict.  `uuid` stands for the random component of the blob name. -/
def generate_pdf_catalog (db : DB) (uuid aid : String) :
    Except PyErr GenResult × Effects :=
  match get_artisan_products db aid with
  | .error e => (.error (.exn ("Error generating PDF: " ++ pyStr e)), Effects.empty)
  | .ok (a, ps) =>
    if ps.isEmpty then
      (.error (.exn "Error generating PDF: No products found for this artisan"),
       Effects.empty)
    else
      let path := "catalogs/" ++ aid ++ "_" ++ uuid ++ ".pdf"
      let url := publicUrl path
      (.ok { success := true, catalog_url := url, product_count := ps.length,
             artisan_name := a.name.getD "Artisan" },
       { uploads := [⟨path, "application/pdf", .pdfDoc⟩],
         records := [⟨aid, "pdf", url, ps.length, path⟩] })

/-- `CatalogService.generate_image_catalog`, with the same error wrapping
tagged `"Error generating image: "`.  The canvas drawing performed on the
success path is `renderGrid ps oracle` (the PNG bytes themselves are
abstracted); note the result and the effects do not depend on `oracle`:
per-product asset failures never abort the render. -/
def generate_image_catalog (db : DB) (oracle : Nat → AssetOutcome) (uuid aid : String) :
    Except PyErr GenResult × Effects :=
  match get_artisan_products db aid with
  | .error e => (.error (.exn ("Error generating image: " ++ pyStr e)), Effects.empty)
  | .ok (a, ps) =>
    if ps.isEmpty then
      (.error (.exn "Error generating image: No products found for this artisan"),
       Effects.empty)
    else
      let path := "catalogs/" ++ aid ++ "_" ++ uuid ++ ".png"
      let url := publicUrl path
      (.ok { success := true, catalog_url := url, product_count := ps.length,
             artisan_name := a.name.getD "Artisan" },
       { uploads := [⟨path, "image/png", .png (renderGrid ps oracle)⟩],
         records := [⟨aid, "image", url, ps.length, path⟩] })

/-! ## Route layer: `POST /generate` (`generate_catalog`) -/

/-- What the endpoint hands back to the HTTP framework: the result dict,
or an `HTTPException` with a status code and a detail string. -/
inductive RouteOutcome
  | ok (r : GenResult)
  | httpError (status : Nat) (detail : String)
  deriving Repr, DecidableEq

/-- The HTTP status of an error outcome. -/
def RouteOutcome.statusCode : RouteOutcome → Option Nat
  | .ok _ => none
  | .httpError s _ => some s

/-- Whether the outcome is a client-facing 4xx error. -/
def RouteOutcome.isClientError : RouteOutcome → Bool
  | .httpError s _ => 400 ≤ s && s < 500
  | .ok _ => false

/-- The `POST /generate` handler: dispatch on `catalog_type`, raising
`HTTPException(400)` for any other type; then `except ValueError` →
`HTTPException(404, str(e))` and `except Exception` →
`HTTPException(500, str(e))`.  An `HTTPException` raised inside the `try`
is itself an `Exception` and not a `ValueError`, so it is re-raised with
status 500. -/
def generate_catalog (db : DB) (oracle : Nat → AssetOutcome) (uuid aid ctype : String) :
    RouteOutcome × Effects :=
  let step : Except PyErr GenResult × Effects :=
    if ctype = "pdf" then generate_pdf_catalog db uuid aid
    else if ctype = "image" then generate_image_catalog db oracle uuid aid
    else (.error (.httpExn 400 "Invalid catalog type. Use \x27pdf\x27 or \x27image\x27"),
          Effects.empty)
  match step with
  | (.ok r, eff) => (.ok r, eff)
  | (.error (.valueError m), eff) => (.httpError 404 m, eff)
  | (.error e, eff) => (.httpError 500 (pyStr e), eff)

/-! ## Concrete fixtures used by witnesses and counterexamples -/

/-- A complete artisan profile. -/
def artisanA : Artisan := ⟨some "Asha", none, none⟩

/-- A product without an image URL. -/
def prodPlain : Product := ⟨some "Bowl", some "clay bowl", 123450, some "pottery", none⟩

/-- A product with an image URL. -/
def prodWithUrl : Product :=
  ⟨some "Vase", none, 50000, none, some "http://example.com/v.png"⟩

/-- A store in which artisan `"a"` exists but owns no products. -/
def dbNoProducts : DB :=
  ⟨fun s => if s = "a" then some artisanA else none, fun _ => []⟩

/-- A store in which artisan `"a"` exists and owns two products. -/
def dbTwo : DB :=
  ⟨fun s => if s = "a" then some artisanA else none,
   fun s => if s = "a" then [prodPlain, prodWithUrl] else []⟩

/-- An asset oracle under which every image download returns `None`. -/
def oracleNoData : Nat → AssetOutcome := fun _ => .noData

/-- A 40-character product name. -/
def name40 : String := "0123456789012345678901234567890123456789"

/-! ## Helper lemmas -/

/-- The image-area drawing calls of a cell are exactly the ones the asset
outcome chooses; every one of them satisfies `isImageArea`. -/
theorem filter_not_isImageArea_imageCellOps (x y : Nat) (p : Product) (a : AssetOutcome) :
    (imageCellOps x y p a).filter (fun op => !op.isImageArea) = [] := by
  unfold imageCellOps
  cases p.image_url <;> cases a <;> simp [DrawOp.isImageArea]

/-- The two-digit fractional renderer really yields two characters. -/
theorem twoDigits_len : ∀ f : Fin 100, pyLen (twoDigits f.val) = 2 := by decide

/-- The cell of the product at position `i` of the list is a contiguous
block of the drawing calls emitted by the loop started at index `k`. -/
theorem renderCell_infix_renderFrom (oracle : Nat → AssetOutcome) :
    ∀ (ps : List Product) (k i : Nat) (p : Product), ps[i]? = some p →
      renderCell (k + i) p (oracle (k + i)) <:+: renderFrom k ps oracle := by
  intro ps
  induction ps with
  | nil => intro k i p h; simp at h
  | cons q rest ih =>
    intro k i p h
    cases i with
    | zero =>
      simp only [List.getElem?_cons_zero, Option.some.injEq] at h
      subst h
      simpa [renderFrom] using
        (List.prefix_append (renderCell k q (oracle k))
          (renderFrom (k + 1) rest oracle)).isInfix
    | succ n =>
      simp only [List.getElem?_cons_succ] at h
      have hrec := ih (k + 1) n p h
      have harith : k + 1 + n = k + (n + 1) := by omega
      rw [harith] at hrec
      exact hrec.trans
        ((List.suffix_append (renderCell k q (oracle k))
          (renderFrom (k + 1) rest oracle)).isInfix)

/-- The `product_count` of a successful service result, `none` on error. -/
def resultCount : Except PyErr GenResult → Option Nat
  | .ok r => some r.product_count
  | .error _ => none

/-! ## Claims -/

/-- C1 (counterexample): for artisan `"a"`, whose profile exists and whose
product list is empty, the `generate` endpoint surfaces HTTP 500 for both
formats — an internal error, not a client-facing 4xx "bad input"
condition. -/
theorem C1_counterexample :
    dbNoProducts.profiles "a" = some artisanA
  ∧ dbNoProducts.products "a" = []
  ∧ (generate_catalog dbNoProducts oracleNoData "u" "a" "pdf").1.statusCode = some 500
  ∧ (generate_catalog dbNoProducts oracleNoData "u" "a" "pdf").1.isClientError = false
  ∧ (generate_catalog dbNoProducts oracleNoData "u" "a" "image").1.statusCode = some 500
  ∧ (generate_catalog dbNoProducts oracleNoData "u" "a" "image").1.isClientError = false :=
  ⟨rfl, rfl, rfl, rfl, rfl, rfl⟩

/-- C1 (amended): for every artisan whose profile exists but whose product
list is empty, `generate` (both formats) always fails — the service raises
`ValueError`, but its own catch-all re-wraps it into a plain `Exception`,
so the endpoint surfaces HTTP 500, not a 4xx condition — and never
produces an artifact: no upload occurs and no catalog record is written. -/
theorem C1_empty_products_rejected (db : DB) (oracle : Nat → AssetOutcome)
    (uuid aid : String) (a : Artisan)
    (hp : db.profiles aid = some a) (he : db.products aid = []) :
    generate_catalog db oracle uuid aid "pdf"
      = (.httpError 500 "Error generating PDF: No products found for this artisan",
         Effects.empty)
  ∧ generate_catalog db oracle uuid aid "image"
      = (.httpError 500 "Error generating image: No products found for this artisan",
         Effects.empty) := by
  constructor <;>
    simp [generate_catalog, generate_pdf_catalog, generate_image_catalog,
          get_artisan_products, hp, he, pyStr]

/-- C1 (witness): the amended statement at the concrete store. -/
theorem C1_empty_products_rejected_witness :
    generate_catalog dbNoProducts oracleNoData "u" "a" "pdf"
      = (.httpError 500 "Error generating PDF: No products found for this artisan",
         Effects.empty)
  ∧ generate_catalog dbNoProducts oracleNoData "u" "a" "image"
      = (.httpError 500 "Error generating image: No products found for this artisan",
         Effects.empty) :=
  C1_empty_products_rejected dbNoProducts oracleNoData "u" "a" artisanA rfl rfl

/-- C2 (counterexample): for artisan id `"b"`, which has no profile, the
`generate` endpoint surfaces HTTP 500 for both formats — not the
client-facing 404 "not found" condition the route's `except ValueError`
handler was meant to produce. -/
theorem C2_counterexample :
    dbNoProducts.profiles "b" = none
  ∧ (generate_catalog dbNoProducts oracleNoData "u" "b" "pdf").1.statusCode = some 500
  ∧ (generate_catalog dbNoProducts oracleNoData "u" "b" "pdf").1.statusCode ≠ some 404
  ∧ (generate_catalog dbNoProducts oracleNoData "u" "b" "pdf").1.isClientError = false
  ∧ (generate_catalog dbNoProducts oracleNoData "u" "b" "image").1.statusCode = some 500
  ∧ (generate_catalog dbNoProducts oracleNoData "u" "b" "image").1.isClientError = false :=
  ⟨rfl, rfl, by decide, rfl, rfl, rfl⟩

/-- C2 (amended): for every artisan id with no profile in the store,
`generate` always fails — the `ValueError` raised inside
`get_artisan_products` is re-wrapped twice into plain `Exception`s, so the
endpoint surfaces HTTP 500 (whose detail still names the missing artisan),
not a 404 — and produces no artifact: no upload and no catalog record. -/
theorem C2_missing_artisan_rejected (db : DB) (oracle : Nat → AssetOutcome)
    (uuid aid : String) (hp : db.profiles aid = none) :
    generate_catalog db oracle uuid aid "pdf"
      = (.httpError 500
           ("Error generating PDF: Error fetching data: Artisan not found with ID: " ++ aid),
         Effects.empty)
  ∧ generate_catalog db oracle uuid aid "image"
      = (.httpError 500
           ("Error generating image: Error fetching data: Artisan not found with ID: " ++ aid),
         Effects.empty) := by
  constructor <;>
  · simp [generate_catalog, generate_pdf_catalog, generate_image_catalog,
          get_artisan_products, hp, pyStr]
    rw [← String.append_assoc]
    congr 1

/-- C2 (witness): the amended statement at the concrete store. -/
theorem C2_missing_artisan_rejected_witness :
    generate_catalog dbNoProducts oracleNoData "u" "b" "pdf"
      = (.httpError 500
           ("Error generating PDF: Error fetching data: Artisan not found with ID: " ++ "b"),
         Effects.empty)
  ∧ generate_catalog dbNoProducts oracleNoData "u" "b" "image"
      = (.httpError 500
           ("Error generating image: Error fetching data: Artisan not found with ID: " ++ "b"),
         Effects.empty) :=
  C2_missing_artisan_rejected dbNoProducts oracleNoData "u" "b" rfl

/-- C3: for every non-empty product list, a successful generate (pdf or
image) returns a `product_count` equal to the length of the product list,
and the single catalog record it persists carries that same count. -/
theorem C3_product_count (db : DB) (oracle : Nat → AssetOutcome)
    (uuid aid : String) (a : Artisan)
    (hp : db.profiles aid = some a) (hne : db.products aid ≠ []) :
    resultCount (generate_pdf_catalog db uuid aid).1 = some (db.products aid).length
  ∧ (generate_pdf_catalog db uuid aid).2.records.map CatalogRecord.product_count
      = [(db.products aid).length]
  ∧ resultCount (generate_image_catalog db oracle uuid aid).1
      = some (db.products aid).length
  ∧ (generate_image_catalog db oracle uuid aid).2.records.map CatalogRecord.product_count
      = [(db.products aid).length] := by
  have hps : (db.products aid).isEmpty = false := by
    cases h : db.products aid with
    | nil => exact absurd h hne
    | cons x xs => rfl
  refine ⟨?_, ?_, ?_, ?_⟩ <;>
    simp [generate_pdf_catalog, generate_image_catalog, get_artisan_products,
          hp, hps, resultCount]

/-- C3 (witness): the two-product store yields `product_count = 2` in both
the returned result and the persisted record, for both formats. -/
theorem C3_product_count_witness :
    resultCount (generate_pdf_catalog dbTwo "u" "a").1 = some 2
  ∧ (generate_pdf_catalog dbTwo "u" "a").2.records.map CatalogRecord.product_count = [2]
  ∧ resultCount (generate_image_catalog dbTwo oracleNoData "u" "a").1 = some 2
  ∧ (generate_image_catalog dbTwo oracleNoData "u" "a").2.records.map
      CatalogRecord.product_count = [2] :=
  C3_product_count dbTwo oracleNoData "u" "a" artisanA rfl (by decide)

/-- C10: for every request whose format is neither `"pdf"` nor `"image"`,
the endpoint responds with HTTP 500, not 400: the `HTTPException(400)`
raised for the invalid type is itself an `Exception` and is intercepted by
the endpoint's catch-all handler, which re-raises it with status 500 and
detail `str(e) = "400: ..."`. -/
theorem C10_invalid_type_500 (db : DB) (oracle : Nat → AssetOutcome)
    (uuid aid ctype : String) (h1 : ctype ≠ "pdf") (h2 : ctype ≠ "image") :
    generate_catalog db oracle uuid aid ctype
      = (.httpError 500 ("400: " ++ "Invalid catalog type. Use \x27pdf\x27 or \x27image\x27"),
         Effects.empty)
  ∧ (generate_catalog db oracle uuid aid ctype).1.statusCode = some 500
  ∧ (generate_catalog db oracle uuid aid ctype).1.statusCode ≠ some 400 := by
  have hd : toString (400 : Nat) ++ ": " = "400: " := by decide
  have hmain : generate_catalog db oracle uuid aid ctype
      = (.httpError 500 ("400: " ++ "Invalid catalog type. Use \x27pdf\x27 or \x27image\x27"),
         Effects.empty) := by
    simp only [generate_catalog, if_neg h1, if_neg h2, pyStr]
    rw [hd]
  refine ⟨hmain, ?_, ?_⟩ <;> rw [hmain] <;> decide

/-- C10 (witness): the concrete invalid format `"xml"`. -/
theorem C10_invalid_type_500_witness :
    generate_catalog dbTwo oracleNoData "u" "a" "xml"
      = (.httpError 500 ("400: " ++ "Invalid catalog type. Use \x27pdf\x27 or \x27image\x27"),
         Effects.empty)
  ∧ (generate_catalog dbTwo oracleNoData "u" "a" "xml").1.statusCode = some 500
  ∧ (generate_catalog dbTwo oracleNoData "u" "a" "xml").1.statusCode ≠ some 400 :=
  C10_invalid_type_500 dbTwo oracleNoData "u" "a" "xml" (by decide) (by decide)

/-- C4: for every product count `N` the image engine's canvas height is
`H_hdr + ceil(N/2) * H_row` with `H_hdr = 150`, `H_row = 450`, and the
canvas width is fixed at 1200; `rows` is exactly the ceiling of `N/2`
(pinned by the two inequalities), and `N = 3` yields 2 rows. -/
theorem C4_canvas_geometry :
    (∀ n : Nat,
      img_height n = 150 + ((n + 1) / 2) * 450
        ∧ canvasRows n = (n + 1) / 2
        ∧ n ≤ 2 * canvasRows n
        ∧ 2 * canvasRows n < n + 2)
    ∧ img_width = 1200
    ∧ header_height = 150
    ∧ product_height = 450
    ∧ canvasRows 3 = 2 := by
  refine ⟨fun n => ⟨?_, ?_, ?_, ?_⟩, rfl, rfl, rfl, rfl⟩ <;>
    simp [img_height, canvasRows, header_height, product_height, products_per_row] <;>
    omega

/-- C6: the shared image-download helper never raises past its boundary —
it is a total function into `Option`: a timeout yields `None`, any other
request failure yields `None`, and a response yields the fetched bytes
exactly when its declared content type contains `"image"`, `None`
otherwise. -/
theorem C6_download_never_raises :
    download_image .timeout = none
  ∧ download_image .requestError = none
  ∧ ∀ ct body, download_image (.okResponse ct body)
      = if hasImageContentType ct then some body else none :=
  ⟨rfl, rfl, fun _ _ => rfl⟩

/-- C5: product `i` (0-indexed) is placed at column `i % 2` and row
`i / 2`: its cell anchor is `x_offset + (i % 2) * col_width` and
`header_height + 30 + (i / 2) * product_height`; its card rectangle sits
at the anchor minus the fixed 10-pixel inset; the whole cell appears as a
contiguous block of the grid's drawing calls; and every non-image-area
drawing call of the cell is identical under any two asset oracles —
placement is independent of image-fetch success or failure. -/
theorem C5_grid_placement (ps : List Product) (oracle oracle2 : Nat → AssetOutcome)
    (i : Nat) (p : Product) (h : ps[i]? = some p) :
    xPos i = 50 + (i % 2) * 550
  ∧ yPos i = 150 + 30 + (i / 2) * 450
  ∧ (renderCell i p (oracle i)).head?
      = some (.cardRect (xPos i - 10) (yPos i - 10) 530 420)
  ∧ renderCell i p (oracle i) <:+: renderGrid ps oracle
  ∧ (renderCell i p (oracle i)).filter (fun op => !op.isImageArea)
      = (renderCell i p (oracle2 i)).filter (fun op => !op.isImageArea) := by
  refine ⟨?_, ?_, rfl, ?_, ?_⟩
  · simp [xPos, x_offset, col_width, products_per_row]
  · simp [yPos, y_offset, header_height, product_height, products_per_row]
  · have hrec := renderCell_infix_renderFrom oracle ps 0 i p h
    rw [Nat.zero_add] at hrec
    exact hrec
  · simp only [renderCell, List.filter_cons, List.filter_append,
      filter_not_isImageArea_imageCellOps, List.nil_append]

/-- C5 (witness): product 1 of the two-product list, under a failing and a
succeeding-decode oracle. -/
theorem C5_grid_placement_witness :
    xPos 1 = 50 + (1 % 2) * 550
  ∧ yPos 1 = 150 + 30 + (1 / 2) * 450
  ∧ (renderCell 1 prodWithUrl (oracleNoData 1)).head?
      = some (.cardRect (xPos 1 - 10) (yPos 1 - 10) 530 420)
  ∧ renderCell 1 prodWithUrl (oracleNoData 1)
      <:+: renderGrid [prodPlain, prodWithUrl] oracleNoData
  ∧ (renderCell 1 prodWithUrl (oracleNoData 1)).filter (fun op => !op.isImageArea)
      = (renderCell 1 prodWithUrl ((fun _ => AssetOutcome.decodeFailed) 1)).filter
          (fun op => !op.isImageArea) :=
  C5_grid_placement [prodPlain, prodWithUrl] oracleNoData
    (fun _ => AssetOutcome.decodeFailed) 1 prodWithUrl rfl

/-- C7 (counterexample): for a product with an image URL whose fetch fails
(`download_image` returned `None`, as it does on a timeout), the cell
contains no placeholder drawing call at all — the "No Image" placeholder
appears only when decoding raises. -/
theorem C7_counterexample :
    prodWithUrl.image_url = some "http://example.com/v.png"
  ∧ download_image .timeout = none
  ∧ (renderCell 0 prodWithUrl .noData).filter DrawOp.isPlaceholder = []
  ∧ (renderCell 0 prodWithUrl .decodeFailed).filter DrawOp.isPlaceholder
      = [.placeholderRect (xPos 0) (yPos 0) 280 280,
         .placeholderText (xPos 0 + 80) (yPos 0 + 130) "No Image"] :=
  ⟨rfl, rfl, rfl, rfl⟩

/-- C7 (amended): a per-product image failure never aborts the render —
for any asset oracle the image engine still produces the artifact, with
`product_count` unchanged and one PNG uploaded — but the neutral "No
Image" placeholder is drawn only when the downloaded bytes fail to
decode; a failed fetch (helper returned `None`) silently omits the image
without a placeholder. -/
theorem C7_placeholder_only_on_decode_failure (db : DB) (oracle : Nat → AssetOutcome)
    (uuid aid : String) (a : Artisan)
    (hp : db.profiles aid = some a) (hne : db.products aid ≠ []) :
    resultCount (generate_image_catalog db oracle uuid aid).1
      = some (db.products aid).length
  ∧ (generate_image_catalog db oracle uuid aid).2.uploads.map Upload.contentType
      = ["image/png"]
  ∧ ∀ x y (p : Product) (o : AssetOutcome), p.image_url.isSome →
      (imageCellOps x y p o).filter DrawOp.isPlaceholder
        = if o = .decodeFailed
          then [.placeholderRect x y 280 280,
                .placeholderText (x + 80) (y + 130) "No Image"]
          else [] := by
  have hps : (db.products aid).isEmpty = false := by
    cases h : db.products aid with
    | nil => exact absurd h hne
    | cons x xs => rfl
  refine ⟨?_, ?_, ?_⟩
  · simp [generate_image_catalog, get_artisan_products, hp, hps, resultCount]
  · simp [generate_image_catalog, get_artisan_products, hp, hps]
  · intro x y p o hs
    match hu : p.image_url with
    | none => rw [hu] at hs; simp at hs
    | some u => cases o <;> simp [imageCellOps, hu, DrawOp.isPlaceholder]

/-- C7 (witness): the amended statement at the two-product store under an
all-decode-failing oracle, with the placeholder equation instantiated at
a decode failure and at a fetch failure. -/
theorem C7_placeholder_only_on_decode_failure_witness :
    resultCount (generate_image_catalog dbTwo (fun _ => AssetOutcome.decodeFailed) "u" "a").1
      = some ((dbTwo.products "a").length)
  ∧ (imageCellOps (xPos 0) (yPos 0) prodWithUrl .decodeFailed).filter DrawOp.isPlaceholder
      = (if AssetOutcome.decodeFailed = .decodeFailed
         then [.placeholderRect (xPos 0) (yPos 0) 280 280,
               .placeholderText (xPos 0 + 80) (yPos 0 + 130) "No Image"]
         else [])
  ∧ (imageCellOps (xPos 0) (yPos 0) prodWithUrl .noData).filter DrawOp.isPlaceholder
      = (if AssetOutcome.noData = .decodeFailed
         then [.placeholderRect (xPos 0) (yPos 0) 280 280,
               .placeholderText (xPos 0 + 80) (yPos 0 + 130) "No Image"]
         else []) :=
  let h := C7_placeholder_only_on_decode_failure dbTwo (fun _ => AssetOutcome.decodeFailed)
    "u" "a" artisanA rfl (by decide)
  ⟨h.1, h.2.2 (xPos 0) (yPos 0) prodWithUrl .decodeFailed (by decide),
        h.2.2 (xPos 0) (yPos 0) prodWithUrl .noData (by decide)⟩

/-- C8: both engines render the price with a `₹` prefix, thousands
separators and exactly two decimals: the PDF text is `"Price: "` before
the image text, every price ends in a dot and two digits, and the price
`1234.5` (123450 cents) renders as `1,234.50` after the symbol. -/
theorem C8_price_format :
    imagePriceText 123450 = "₹" ++ "1,234.50"
  ∧ pdfPriceText 123450 = "Price: " ++ "₹" ++ "1,234.50"
  ∧ commaNat 1234567 = "1,234,567"
  ∧ ∀ cents : Nat,
      pdfPriceText cents = "Price: " ++ imagePriceText cents
      ∧ imagePriceText cents
          = "₹" ++ (commaNat (cents / 100) ++ "." ++ twoDigits (cents % 100))
      ∧ pyLen (twoDigits (cents % 100)) = 2 := by
  refine ⟨by decide, by decide, by decide, fun cents => ⟨rfl, ?_, ?_⟩⟩
  · simp [imagePriceText, pyFormatComma2]
  · exact twoDigits_len ⟨cents % 100, Nat.mod_lt _ (by norm_num)⟩

/-- C9: the image engine renders a product name of more than 35 characters
as exactly its first 35 characters followed by `"..."`, and a name of at
most 35 characters unchanged; the concrete 40-character name renders as 35
characters plus the marker. -/
theorem C9_name_truncation :
    (∀ (s : String) (d : Option String) (pc : Nat) (cat iu : Option String),
      imageProductName ⟨some s, d, pc, cat, iu⟩
        = if 35 < pyLen s then pyTake s 35 ++ "..." else s)
  ∧ imageProductName ⟨some name40, none, 0, none, none⟩ = pyTake name40 35 ++ "..."
  ∧ pyLen name40 = 40
  ∧ pyLen (pyTake name40 35) = 35
  ∧ pyLen (imageProductName ⟨some name40, none, 0, none, none⟩) = 38 := by
  refine ⟨fun s d pc cat iu => ?_, by decide, by decide, by decide, by decide⟩
  cases s with
  | mk data =>
    simp only [imageProductName, pyTake, pyLen, Option.getD_some]
    by_cases h : 35 < data.length
    · simp [h]
    · rw [if_neg h, if_neg h]
      rw [List.take_of_length_le (Nat.not_lt.mp h)]

end CatalogSvc
